import Mathlib

set_option maxRecDepth 8000

/-!
Shallow embedding of `examples/smart_light/components/wifi_config/wifi_config_esp.c`,
the ESP32 Wi-Fi glue layer of the qcloud repository.

Modelling conventions:
* The three FreeRTOS event-group bit constants keep their values (`BIT0`, `BIT1`,
  `BIT2`); the event group's pending bits are a `Nat` bitmask, `Option Nat` standing
  for the handle `sg_wifi_event_group` (`none` = `NULL`).
* Vendor (ESP-IDF / FreeRTOS) calls are modelled by an environment `VendorEnv`
  recording the status each vendor call returns during one invocation; vendor-side
  effects that the module observes (current Wi-Fi mode, stored configs, registered
  event handlers, a ghost counter of event-group creations) are tracked in the state.
* `ESP_ERROR_CHECK` aborts the program on failure instead of returning, so those
  vendor calls are modelled as succeeding (an aborted run never returns at all).
* C early `return`s become nested `if`s; `static` function-local buffers
  (`router_wifi_config` in `wifi_sta_connect` / `wifi_ap_sta_connect`) become
  persistent state fields, written by `strncpy` with its size bounds.
* The outcome enum of `wifi_wait_event` (declared in `wifi_config_internal.h`,
  which is not part of the repository snapshot) is modelled as the inductive
  `WaitResult` with one constructor per outcome code named in the code.
-/

namespace WifiConfig

/-- BIT0, the CONNECTED bit of the event group. -/
def CONNECTED_BIT : Nat := 1

/-- BIT1, the ESPTOUCH_DONE bit of the event group. -/
def ESPTOUCH_DONE_BIT : Nat := 2

/-- BIT2, the STA_DISCONNECTED bit of the event group. -/
def STA_DISCONNECTED_BIT : Nat := 4

/-- ESP_OK status code. -/
def ESP_OK : Int := 0

/-- ESP_ERR_NO_MEM status code (0x101). -/
def ESP_ERR_NO_MEM : Int := 257

/-- Wi-Fi operating modes accepted by `esp_wifi_set_mode`. -/
inductive WifiMode
  | modeNull
  | modeSta
  | modeAp
  | modeApSta
deriving DecidableEq, Repr

/-- Authentication modes used by `wifi_ap_init`. -/
inductive AuthMode
  | authOpen
  | authWpaWpa2Psk
deriving DecidableEq, Repr

/-- The softap configuration `wifi_ap_init` passes to `esp_wifi_set_config`. -/
structure ApCfg where
  ssid : String
  ssidLen : Nat
  channel : Nat
  maxConnection : Nat
  password : Option String
  authmode : AuthMode
deriving DecidableEq, Repr

/-- Status codes the vendor calls return during one invocation of a module
function.  Each field stands for the result of one vendor call site. -/
structure VendorEnv where
  eventGroupCreateOk : Bool
  wifiInitRc : Int
  disconnectRc : Int
  stopRc : Int
  setStorageRc : Int
  setModeRc : Int
  setConfigRc : Int
  connectRc : Int
  scSetTypeRc : Int
  scStopRc : Int
  wifiStartRc : Int
deriving DecidableEq, Repr

/-- Environment in which every vendor call succeeds. -/
def okEnv : VendorEnv :=
  { eventGroupCreateOk := true, wifiInitRc := 0, disconnectRc := 0, stopRc := 0,
    setStorageRc := 0, setModeRc := 0, setConfigRc := 0, connectRc := 0,
    scSetTypeRc := 0, scStopRc := 0, wifiStartRc := 0 }

/-- State visible to the module: its three file-scope variables
(`sg_wifi_event_group`, `sg_wifi_init_done`, `sg_wifi_sta_connected`), the two
function-static `router_wifi_config` buffers, and the vendor-side facts the
module manipulates (mode, stored configs, registered handlers, started flag,
plus a ghost count of successful `xEventGroupCreate` calls). -/
structure ModState where
  eventGroup : Option Nat
  initDone : Bool
  staConnected : Bool
  staCfgBuf : String × String
  apStaCfgBuf : String × String
  vendorMode : WifiMode
  vendorApCfg : Option ApCfg
  vendorStaCfg : Option (String × String)
  ipHandlerRegistered : Bool
  wifiHandlerRegistered : Bool
  vendorStarted : Bool
  egCreateCount : Nat
deriving DecidableEq, Repr

/-- The state at program start: statics zero-initialised, nothing registered. -/
def initialState : ModState :=
  { eventGroup := none, initDone := false, staConnected := false,
    staCfgBuf := ("", ""), apStaCfgBuf := ("", ""),
    vendorMode := WifiMode.modeNull, vendorApCfg := none, vendorStaCfg := none,
    ipHandlerRegistered := false, wifiHandlerRegistered := false,
    vendorStarted := false, egCreateCount := 0 }

/-- Clear the bits of `m` inside `g` (the effect of `xEventGroupClearBits`). -/
def clearMask (g m : Nat) : Nat := g ^^^ (g &&& m)

/-- `xEventGroupSetBits` on the module's event group (no-op on a NULL handle). -/
def setEventBits (s : ModState) (m : Nat) : ModState :=
  { s with eventGroup := s.eventGroup.map (· ||| m) }

/-- `xEventGroupClearBits` on the module's event group (no-op on a NULL handle). -/
def clearEventBits (s : ModState) (m : Nat) : ModState :=
  { s with eventGroup := s.eventGroup.map (clearMask · m) }

/-- `is_wifi_sta_connected`: returns the stored flag. -/
def is_wifi_sta_connected (s : ModState) : Bool := s.staConnected

/-- The event identifiers the switch in `_wifi_event_handler_new` distinguishes. -/
inductive WifiEventId
  | staStart
  | staConnectedEvt
  | staDisconnectedEvt
  | apStart
  | apStop
  | apStaConnectedEvt
  | apStaDisconnectedEvt
  | apStaIpAssigned
  | otherEvt (id : Int)
deriving DecidableEq, Repr

/-- `_wifi_event_handler_new`: only the `WIFI_EVENT_STA_DISCONNECTED` case
mutates state (clear CONNECTED, set STA_DISCONNECTED, record not connected);
every other case only logs. -/
def wifi_event_handler_new (e : WifiEventId) (s : ModState) : ModState :=
  match e with
  | WifiEventId.staDisconnectedEvt =>
      let s := clearEventBits s CONNECTED_BIT
      let s := setEventBits s STA_DISCONNECTED_BIT
      { s with staConnected := false }
  | _ => s

/-- `ip_event_handler` (registered for `IP_EVENT_STA_GOT_IP`): sets CONNECTED. -/
def ip_event_handler (s : ModState) : ModState :=
  setEventBits s CONNECTED_BIT

/-- Body of `wifi_ap_init` after the one-time init block. -/
def wifi_ap_init_body (env : VendorEnv) (ssid : String) (psw : Option String)
    (ch : Nat) (s : ModState) : Int × ModState :=
  let s := { s with staConnected := false }
  let s := clearEventBits s (CONNECTED_BIT ||| ESPTOUCH_DONE_BIT ||| STA_DISCONNECTED_BIT)
  -- esp_wifi_disconnect / esp_wifi_stop: failures are only logged as warnings
  let s := { s with ipHandlerRegistered := true, wifiHandlerRegistered := true }
  if env.setStorageRc ≠ 0 then (env.setStorageRc, s)
  else
    let cfg : ApCfg :=
      { ssid := ssid, ssidLen := ssid.length, channel := ch, maxConnection := 3,
        password := psw,
        authmode := if psw.isSome then AuthMode.authWpaWpa2Psk else AuthMode.authOpen }
    if env.setModeRc ≠ 0 then (env.setModeRc, s)
    else
      let s := { s with vendorMode := WifiMode.modeAp }
      if env.setConfigRc ≠ 0 then (env.setConfigRc, s)
      else (ESP_OK, { s with vendorApCfg := some cfg })

/-- `wifi_ap_init`. -/
def wifi_ap_init (env : VendorEnv) (ssid : String) (psw : Option String)
    (ch : Nat) (s : ModState) : Int × ModState :=
  if !s.initDone then
    if !env.eventGroupCreateOk then
      (ESP_ERR_NO_MEM, { s with eventGroup := none })
    else
      let s := { s with eventGroup := some 0, egCreateCount := s.egCreateCount + 1 }
      if env.wifiInitRc ≠ 0 then (env.wifiInitRc, s)
      else wifi_ap_init_body env ssid psw ch { s with initDone := true }
  else wifi_ap_init_body env ssid psw ch s

/-- Body of `wifi_sta_init` after the one-time init block. -/
def wifi_sta_init_body (env : VendorEnv) (s : ModState) : Int × ModState :=
  let s := { s with staConnected := false }
  let s := clearEventBits s (CONNECTED_BIT ||| ESPTOUCH_DONE_BIT ||| STA_DISCONNECTED_BIT)
  -- esp_wifi_stop: failure is only logged as a warning
  if env.setStorageRc ≠ 0 then (env.setStorageRc, s)
  else if env.setModeRc ≠ 0 then (env.setModeRc, s)
  else (ESP_OK, { s with vendorMode := WifiMode.modeSta })

/-- `wifi_sta_init`. -/
def wifi_sta_init (env : VendorEnv) (s : ModState) : Int × ModState :=
  if !s.initDone then
    if !env.eventGroupCreateOk then
      (ESP_ERR_NO_MEM, { s with eventGroup := none })
    else
      let s := { s with eventGroup := some 0, egCreateCount := s.egCreateCount + 1 }
      if env.wifiInitRc ≠ 0 then (env.wifiInitRc, s)
      else wifi_sta_init_body env { s with initDone := true }
  else wifi_sta_init_body env s

/-- `wifi_sta_connect`: fills the function-static `router_wifi_config` with
`strncpy(ssid, 32)` / `strncpy(psw, 64)`, then storage → STA mode → config →
connect, propagating the first failure. -/
def wifi_sta_connect (env : VendorEnv) (ssid psw : String) (s : ModState) :
    Int × ModState :=
  let cfg := (ssid.take 32, psw.take 64)
  let s := { s with staCfgBuf := cfg }
  if env.setStorageRc ≠ 0 then (env.setStorageRc, s)
  else if env.setModeRc ≠ 0 then (env.setModeRc, s)
  else
    let s := { s with vendorMode := WifiMode.modeSta }
    if env.setConfigRc ≠ 0 then (env.setConfigRc, s)
    else
      let s := { s with vendorStaCfg := some cfg }
      if env.connectRc ≠ 0 then (env.connectRc, s)
      else (0, s)

/-- `wifi_ap_sta_connect`: as `wifi_sta_connect` but APSTA mode and its own
function-static buffer. -/
def wifi_ap_sta_connect (env : VendorEnv) (ssid psw : String) (s : ModState) :
    Int × ModState :=
  let cfg := (ssid.take 32, psw.take 64)
  let s := { s with apStaCfgBuf := cfg }
  if env.setStorageRc ≠ 0 then (env.setStorageRc, s)
  else if env.setModeRc ≠ 0 then (env.setModeRc, s)
  else
    let s := { s with vendorMode := WifiMode.modeApSta }
    if env.setConfigRc ≠ 0 then (env.setConfigRc, s)
    else
      let s := { s with vendorStaCfg := some cfg }
      if env.connectRc ≠ 0 then (env.connectRc, s)
      else (0, s)

/-- `wifi_stop_softap`: switches to STA mode, logging (but not propagating) any
`esp_wifi_set_mode` failure, and returns 0 unconditionally. -/
def wifi_stop_softap (env : VendorEnv) (s : ModState) : Int × ModState :=
  let s := if env.setModeRc = 0 then { s with vendorMode := WifiMode.modeSta } else s
  (0, s)

/-- `wifi_start_smartconfig`: only `esp_smartconfig_set_type` remains; the
`esp_smartconfig_start` call is commented out in the source. -/
def wifi_start_smartconfig (env : VendorEnv) (s : ModState) : Int × ModState :=
  if env.scSetTypeRc ≠ 0 then (env.scSetTypeRc, s)
  else (ESP_OK, s)

/-- `wifi_stop_smartconfig`: calls `esp_smartconfig_stop`, then clears all
three event bits, and returns the vendor status. -/
def wifi_stop_smartconfig (env : VendorEnv) (s : ModState) : Int × ModState :=
  let ret := env.scStopRc
  let s := clearEventBits s (CONNECTED_BIT ||| ESPTOUCH_DONE_BIT ||| STA_DISCONNECTED_BIT)
  (ret, s)

/-- The bitmask `wifi_wait_event` waits on. -/
def waitAllMask : Nat := CONNECTED_BIT ||| ESPTOUCH_DONE_BIT ||| STA_DISCONNECTED_BIT

/-- `xEventGroupWaitBits` with `xClearOnExit = pdTRUE`, `xWaitForAllBits =
pdFALSE`: given the group's pending bits when the wait returns, yields the
value it reports and the group's new bits (awaited bits cleared unless the
wait timed out). -/
def xEventGroupWaitBitsAnyClear (g m : Nat) : Nat × Nat :=
  if g &&& m ≠ 0 then (g, clearMask g m) else (g, g)

/-- The four outcome codes of `wifi_wait_event` (from `wifi_config_internal.h`). -/
inductive WaitResult
  | eventWifiConnected
  | eventWifiDisconnected
  | eventSmartconfigStop
  | eventWaitTimeout
deriving DecidableEq, Repr

/-- `wifi_wait_event`: wait on the three bits, then translate the returned
bits with the fixed priority CONNECTED, STA_DISCONNECTED, ESPTOUCH_DONE. -/
def wifi_wait_event (s : ModState) : WaitResult × ModState :=
  let g := s.eventGroup.getD 0
  let p := xEventGroupWaitBitsAnyClear g waitAllMask
  let uxBits := p.1
  let s := { s with eventGroup := s.eventGroup.map (fun _ => p.2) }
  if uxBits &&& CONNECTED_BIT ≠ 0 then (WaitResult.eventWifiConnected, s)
  else if uxBits &&& STA_DISCONNECTED_BIT ≠ 0 then (WaitResult.eventWifiDisconnected, s)
  else if uxBits &&& ESPTOUCH_DONE_BIT ≠ 0 then (WaitResult.eventSmartconfigStop, s)
  else (WaitResult.eventWaitTimeout, s)

/-- `wifi_start_running`: returns `esp_wifi_start()`. -/
def wifi_start_running (env : VendorEnv) (s : ModState) : Int × ModState :=
  if env.wifiStartRc = 0 then (env.wifiStartRc, { s with vendorStarted := true })
  else (env.wifiStartRc, s)

/-- One observable operation on the module: a call to one of its functions, or
the vendor event loop delivering an event to one of the registered handlers. -/
inductive Op
  | apInit (env : VendorEnv) (ssid : String) (psw : Option String) (ch : Nat)
  | staInit (env : VendorEnv)
  | staConn (env : VendorEnv) (ssid psw : String)
  | apStaConn (env : VendorEnv) (ssid psw : String)
  | stopSoftap (env : VendorEnv)
  | startSc (env : VendorEnv)
  | stopSc (env : VendorEnv)
  | startRunning (env : VendorEnv)
  | waitEvt
  | wifiEvt (e : WifiEventId)
  | ipGotIp

/-- State effect of one operation. -/
def stepOp (op : Op) (s : ModState) : ModState :=
  match op with
  | Op.apInit env ssid psw ch => (wifi_ap_init env ssid psw ch s).2
  | Op.staInit env => (wifi_sta_init env s).2
  | Op.staConn env ssid psw => (wifi_sta_connect env ssid psw s).2
  | Op.apStaConn env ssid psw => (wifi_ap_sta_connect env ssid psw s).2
  | Op.stopSoftap env => (wifi_stop_softap env s).2
  | Op.startSc env => (wifi_start_smartconfig env s).2
  | Op.stopSc env => (wifi_stop_smartconfig env s).2
  | Op.startRunning env => (wifi_start_running env s).2
  | Op.waitEvt => (wifi_wait_event s).2
  | Op.wifiEvt e => wifi_event_handler_new e s
  | Op.ipGotIp => ip_event_handler s

/-- Run a sequence of operations. -/
def runOps : List Op → ModState → ModState
  | [], s => s
  | op :: ops, s => runOps ops (stepOp op s)

/-! Helper lemmas about the bitmask operations. -/

theorem and_two_pow_eq_zero_iff (g i : Nat) : g &&& 2 ^ i = 0 ↔ g.testBit i = false := by
  rw [Nat.and_two_pow]
  cases h : g.testBit i <;> simp [h, Nat.ne_of_gt (Nat.two_pow_pos i)]

theorem testBit_clearMask (g m i : Nat) :
    (clearMask g m).testBit i = (g.testBit i && !(m.testBit i)) := by
  unfold clearMask
  rw [Nat.testBit_xor, Nat.testBit_and]
  cases g.testBit i <;> cases m.testBit i <;> rfl

theorem and_one_eq_zero_iff (g : Nat) : g &&& 1 = 0 ↔ g.testBit 0 = false := by
  rw [show (1 : Nat) = 2 ^ 0 from rfl]
  exact and_two_pow_eq_zero_iff g 0

theorem and_two_eq_zero_iff (g : Nat) : g &&& 2 = 0 ↔ g.testBit 1 = false := by
  rw [show (2 : Nat) = 2 ^ 1 from rfl]
  exact and_two_pow_eq_zero_iff g 1

theorem and_four_eq_zero_iff (g : Nat) : g &&& 4 = 0 ↔ g.testBit 2 = false := by
  rw [show (4 : Nat) = 2 ^ 2 from rfl]
  exact and_two_pow_eq_zero_iff g 2

/-- C1: for every combination of pending event flags, `wifi_wait_event` returns
one of exactly four outcome codes, translating the raw flags with the fixed
priority: CONNECTED first, then STA_DISCONNECTED, then ESPTOUCH_DONE, and
EVENT_WAIT_TIMEOUT when none of the awaited flags is set. -/
theorem wifi_wait_event_translation (s : ModState) :
    ((wifi_wait_event s).1 = WaitResult.eventWifiConnected ↔
      (s.eventGroup.getD 0) &&& CONNECTED_BIT ≠ 0) ∧
    ((wifi_wait_event s).1 = WaitResult.eventWifiDisconnected ↔
      ((s.eventGroup.getD 0) &&& CONNECTED_BIT = 0 ∧
       (s.eventGroup.getD 0) &&& STA_DISCONNECTED_BIT ≠ 0)) ∧
    ((wifi_wait_event s).1 = WaitResult.eventSmartconfigStop ↔
      ((s.eventGroup.getD 0) &&& CONNECTED_BIT = 0 ∧
       (s.eventGroup.getD 0) &&& STA_DISCONNECTED_BIT = 0 ∧
       (s.eventGroup.getD 0) &&& ESPTOUCH_DONE_BIT ≠ 0)) ∧
    ((wifi_wait_event s).1 = WaitResult.eventWaitTimeout ↔
      ((s.eventGroup.getD 0) &&& CONNECTED_BIT = 0 ∧
       (s.eventGroup.getD 0) &&& STA_DISCONNECTED_BIT = 0 ∧
       (s.eventGroup.getD 0) &&& ESPTOUCH_DONE_BIT = 0)) := by
  simp only [wifi_wait_event, xEventGroupWaitBitsAnyClear]
  split_ifs <;> simp_all

/-- C5: the event-to-flag table: on the station-disconnected Wi-Fi event the
handler clears CONNECTED, sets STA_DISCONNECTED and records the station as not
connected; on got-IP the IP handler sets CONNECTED. -/
theorem handler_flag_translation (s : ModState) (g : Nat)
    (h : s.eventGroup = some g) :
    (∃ g1, (wifi_event_handler_new WifiEventId.staDisconnectedEvt s).eventGroup = some g1 ∧
      g1 &&& CONNECTED_BIT = 0 ∧ g1 &&& STA_DISCONNECTED_BIT ≠ 0) ∧
    (wifi_event_handler_new WifiEventId.staDisconnectedEvt s).staConnected = false ∧
    (∃ g2, (ip_event_handler s).eventGroup = some g2 ∧ g2 &&& CONNECTED_BIT ≠ 0) := by
  refine ⟨⟨(clearMask g CONNECTED_BIT) ||| STA_DISCONNECTED_BIT, ?_, ?_, ?_⟩, ?_, ⟨g ||| CONNECTED_BIT, ?_, ?_⟩⟩
  · simp [wifi_event_handler_new, setEventBits, clearEventBits, h]
  · rw [CONNECTED_BIT, STA_DISCONNECTED_BIT, and_one_eq_zero_iff, Nat.testBit_or,
      testBit_clearMask]
    simp [CONNECTED_BIT]
  · rw [CONNECTED_BIT, STA_DISCONNECTED_BIT, Ne, and_four_eq_zero_iff, Nat.testBit_or]
    simp
    intro _
    decide
  · simp [wifi_event_handler_new]
  · simp [ip_event_handler, setEventBits, h]
  · rw [CONNECTED_BIT, Ne, and_one_eq_zero_iff, Nat.testBit_or]
    simp

/-- Witness for C5 at a concrete state. -/
theorem handler_flag_translation_witness :
    let s : ModState := { initialState with eventGroup := some 1 }
    (∃ g1, (wifi_event_handler_new WifiEventId.staDisconnectedEvt s).eventGroup = some g1 ∧
      g1 &&& CONNECTED_BIT = 0 ∧ g1 &&& STA_DISCONNECTED_BIT ≠ 0) ∧
    (wifi_event_handler_new WifiEventId.staDisconnectedEvt s).staConnected = false ∧
    (∃ g2, (ip_event_handler s).eventGroup = some g2 ∧ g2 &&& CONNECTED_BIT ≠ 0) :=
  handler_flag_translation { initialState with eventGroup := some 1 } 1 rfl

/-- C10: `wifi_stop_smartconfig` clears all three event bits regardless of the
vendor stop call's status, and returns that status as its own result. -/
theorem wifi_stop_smartconfig_clears_and_propagates (env : VendorEnv)
    (s : ModState) (g : Nat) (h : s.eventGroup = some g) :
    (wifi_stop_smartconfig env s).1 = env.scStopRc ∧
    ∃ g1, (wifi_stop_smartconfig env s).2.eventGroup = some g1 ∧
      g1 &&& CONNECTED_BIT = 0 ∧ g1 &&& ESPTOUCH_DONE_BIT = 0 ∧
      g1 &&& STA_DISCONNECTED_BIT = 0 := by
  refine ⟨rfl, ⟨clearMask g (CONNECTED_BIT ||| ESPTOUCH_DONE_BIT ||| STA_DISCONNECTED_BIT), ?_, ?_, ?_, ?_⟩⟩
  · simp [wifi_stop_smartconfig, clearEventBits, h]
  · rw [CONNECTED_BIT, and_one_eq_zero_iff, testBit_clearMask]
    simp [ESPTOUCH_DONE_BIT, STA_DISCONNECTED_BIT, CONNECTED_BIT]
  · rw [ESPTOUCH_DONE_BIT, and_two_eq_zero_iff, testBit_clearMask]
    simp [ESPTOUCH_DONE_BIT, STA_DISCONNECTED_BIT, CONNECTED_BIT]
    intro _
    decide
  · rw [STA_DISCONNECTED_BIT, and_four_eq_zero_iff, testBit_clearMask]
    simp [ESPTOUCH_DONE_BIT, STA_DISCONNECTED_BIT, CONNECTED_BIT]
    intro _
    decide

/-- Witness for C10 at a concrete environment and state. -/
theorem wifi_stop_smartconfig_clears_and_propagates_witness :
    let s : ModState := { initialState with eventGroup := some 7 }
    let env : VendorEnv := { okEnv with scStopRc := 3 }
    (wifi_stop_smartconfig env s).1 = env.scStopRc ∧
    ∃ g1, (wifi_stop_smartconfig env s).2.eventGroup = some g1 ∧
      g1 &&& CONNECTED_BIT = 0 ∧ g1 &&& ESPTOUCH_DONE_BIT = 0 ∧
      g1 &&& STA_DISCONNECTED_BIT = 0 :=
  wifi_stop_smartconfig_clears_and_propagates { okEnv with scStopRc := 3 }
    { initialState with eventGroup := some 7 } 7 rfl

/-- C8: whenever `wifi_ap_init` or `wifi_sta_init` returns on a path past the
one-time init block (equivalently, with the init-done flag set on exit), the
station-connected flag has been reset, so `is_wifi_sta_connected` then returns
false; `is_wifi_sta_connected` is a pure query returning the stored flag. -/
theorem init_resets_sta_connected :
    (∀ (env : VendorEnv) (ssid : String) (psw : Option String) (ch : Nat) (s : ModState),
      (wifi_ap_init env ssid psw ch s).2.initDone = true →
      is_wifi_sta_connected (wifi_ap_init env ssid psw ch s).2 = false) ∧
    (∀ (env : VendorEnv) (s : ModState),
      (wifi_sta_init env s).2.initDone = true →
      is_wifi_sta_connected (wifi_sta_init env s).2 = false) ∧
    (∀ s : ModState, is_wifi_sta_connected s = s.staConnected) := by
  refine ⟨?_, ?_, fun s => rfl⟩
  · intro env ssid psw ch s
    unfold wifi_ap_init wifi_ap_init_body
    split_ifs <;> simp_all [is_wifi_sta_connected, clearEventBits]
  · intro env s
    unfold wifi_sta_init wifi_sta_init_body
    split_ifs <;> simp_all [is_wifi_sta_connected, clearEventBits]

/-- Witness for C8: a successful `wifi_sta_init` from the initial state leaves
the station-connected flag false. -/
theorem init_resets_sta_connected_witness :
    is_wifi_sta_connected (wifi_sta_init okEnv initialState).2 = false :=
  init_resets_sta_connected.2.1 okEnv initialState (by decide)

/-- C6: when every vendor call succeeds, `wifi_ap_init` configures AP mode with
the given SSID, channel, and open vs. WPA/WPA2 auth depending on whether a
password is supplied; `wifi_sta_init` and `wifi_sta_connect` configure station
mode; `wifi_ap_sta_connect` configures the combined AP+STA mode; and each
returns ESP_OK (0). -/
theorem success_configures_advertised_mode (env : VendorEnv) (ssid : String)
    (psw : Option String) (ch : Nat) (s : ModState) (ssid2 psw2 : String)
    (hc : env.eventGroupCreateOk = true) (h1 : env.wifiInitRc = 0)
    (h2 : env.setStorageRc = 0) (h3 : env.setModeRc = 0)
    (h4 : env.setConfigRc = 0) (h5 : env.connectRc = 0) :
    ((wifi_ap_init env ssid psw ch s).1 = 0 ∧
      (wifi_ap_init env ssid psw ch s).2.vendorMode = WifiMode.modeAp ∧
      ∃ cfg, (wifi_ap_init env ssid psw ch s).2.vendorApCfg = some cfg ∧
        cfg.ssid = ssid ∧ cfg.channel = ch ∧
        cfg.authmode = (if psw.isSome then AuthMode.authWpaWpa2Psk else AuthMode.authOpen)) ∧
    ((wifi_sta_init env s).1 = 0 ∧
      (wifi_sta_init env s).2.vendorMode = WifiMode.modeSta) ∧
    ((wifi_sta_connect env ssid2 psw2 s).1 = 0 ∧
      (wifi_sta_connect env ssid2 psw2 s).2.vendorMode = WifiMode.modeSta) ∧
    ((wifi_ap_sta_connect env ssid2 psw2 s).1 = 0 ∧
      (wifi_ap_sta_connect env ssid2 psw2 s).2.vendorMode = WifiMode.modeApSta) := by
  refine ⟨?_, ?_, ?_, ?_⟩
  · cases hs : s.initDone <;>
      simp [wifi_ap_init, wifi_ap_init_body, hs, hc, h1, h2, h3, h4, ESP_OK]
  · cases hs : s.initDone <;>
      simp [wifi_sta_init, wifi_sta_init_body, hs, hc, h1, h2, h3, ESP_OK]
  · simp [wifi_sta_connect, h2, h3, h4, h5]
  · simp [wifi_ap_sta_connect, h2, h3, h4, h5]

/-- Witness for C6 at the all-success environment and concrete arguments. -/
theorem success_configures_advertised_mode_witness :
    ((wifi_ap_init okEnv "ap" (some "pw") 6 initialState).1 = 0 ∧
      (wifi_ap_init okEnv "ap" (some "pw") 6 initialState).2.vendorMode = WifiMode.modeAp ∧
      ∃ cfg, (wifi_ap_init okEnv "ap" (some "pw") 6 initialState).2.vendorApCfg = some cfg ∧
        cfg.ssid = "ap" ∧ cfg.channel = 6 ∧
        cfg.authmode = (if (some "pw").isSome then AuthMode.authWpaWpa2Psk else AuthMode.authOpen)) ∧
    ((wifi_sta_init okEnv initialState).1 = 0 ∧
      (wifi_sta_init okEnv initialState).2.vendorMode = WifiMode.modeSta) ∧
    ((wifi_sta_connect okEnv "r" "p" initialState).1 = 0 ∧
      (wifi_sta_connect okEnv "r" "p" initialState).2.vendorMode = WifiMode.modeSta) ∧
    ((wifi_ap_sta_connect okEnv "r" "p" initialState).1 = 0 ∧
      (wifi_ap_sta_connect okEnv "r" "p" initialState).2.vendorMode = WifiMode.modeApSta) :=
  success_configures_advertised_mode okEnv "ap" (some "pw") 6 initialState "r" "p"
    rfl rfl rfl rfl rfl rfl

/-- C4 counterexample: a successful `wifi_sta_init` from the initial state
completes initialization yet installs neither event handler, refuting the
claim that both handlers are installed after initialization completes. -/
theorem sta_init_installs_no_handler :
    (wifi_sta_init okEnv initialState).1 = 0 ∧
    (wifi_sta_init okEnv initialState).2.initDone = true ∧
    (wifi_sta_init okEnv initialState).2.ipHandlerRegistered = false ∧
    (wifi_sta_init okEnv initialState).2.wifiHandlerRegistered = false := by
  decide

/-- C4 amended: the module registers exactly two callbacks, the Wi-Fi event
handler and the got-IP handler, but only `wifi_ap_init` installs them: every
`wifi_ap_init` call that gets past the one-time init block installs both,
while `wifi_sta_init` leaves the handler registrations unchanged. -/
theorem ap_init_installs_both_handlers :
    (∀ (env : VendorEnv) (ssid : String) (psw : Option String) (ch : Nat) (s : ModState),
      (wifi_ap_init env ssid psw ch s).2.initDone = true →
      (wifi_ap_init env ssid psw ch s).2.ipHandlerRegistered = true ∧
      (wifi_ap_init env ssid psw ch s).2.wifiHandlerRegistered = true) ∧
    (∀ (env : VendorEnv) (s : ModState),
      (wifi_sta_init env s).2.ipHandlerRegistered = s.ipHandlerRegistered ∧
      (wifi_sta_init env s).2.wifiHandlerRegistered = s.wifiHandlerRegistered) := by
  constructor
  · intro env ssid psw ch s
    unfold wifi_ap_init wifi_ap_init_body
    split_ifs <;> simp_all [clearEventBits]
  · intro env s
    unfold wifi_sta_init wifi_sta_init_body
    split_ifs <;> simp_all [clearEventBits]

/-- Witness for C4 amended: a successful `wifi_ap_init` installs both handlers. -/
theorem ap_init_installs_both_handlers_witness :
    (wifi_ap_init okEnv "ap" none 1 initialState).2.ipHandlerRegistered = true ∧
    (wifi_ap_init okEnv "ap" none 1 initialState).2.wifiHandlerRegistered = true :=
  ap_init_installs_both_handlers.1 okEnv "ap" none 1 initialState (by decide)

/-- C7 counterexample: `wifi_sta_connect` writes the function-static
`router_wifi_config` buffer, a module-level mutable object distinct from the
event-group handle and the two booleans, refuting the claim that no operation
writes any other module-level mutable state. -/
theorem sta_connect_writes_static_buffer :
    (wifi_sta_connect okEnv "myssid" "mypsw" initialState).2.staCfgBuf ≠
      initialState.staCfgBuf := by
  decide

/-- C7 amended: besides the event-group handle and the two booleans, the
module's persistent state includes the two function-static config buffers of
`wifi_sta_connect` and `wifi_ap_sta_connect`; each is fully overwritten before
any read, so no call's result or other state depends on a buffer's prior
value, and no operation other than its owner writes either buffer. -/
theorem static_buffers_are_write_before_read :
    (∀ (env : VendorEnv) (ssid psw : String) (s : ModState) (b : String × String),
      wifi_sta_connect env ssid psw { s with staCfgBuf := b } =
        wifi_sta_connect env ssid psw s) ∧
    (∀ (env : VendorEnv) (ssid psw : String) (s : ModState) (b : String × String),
      wifi_ap_sta_connect env ssid psw { s with apStaCfgBuf := b } =
        wifi_ap_sta_connect env ssid psw s) ∧
    (∀ (env : VendorEnv) (ssid psw : String) (s : ModState),
      (wifi_sta_connect env ssid psw s).2.apStaCfgBuf = s.apStaCfgBuf ∧
      (wifi_ap_sta_connect env ssid psw s).2.staCfgBuf = s.staCfgBuf) ∧
    (∀ (env : VendorEnv) (ssid : String) (psw : Option String) (ch : Nat) (s : ModState),
      (wifi_ap_init env ssid psw ch s).2.staCfgBuf = s.staCfgBuf ∧
      (wifi_ap_init env ssid psw ch s).2.apStaCfgBuf = s.apStaCfgBuf) ∧
    (∀ (env : VendorEnv) (s : ModState),
      (wifi_sta_init env s).2.staCfgBuf = s.staCfgBuf ∧
      (wifi_sta_init env s).2.apStaCfgBuf = s.apStaCfgBuf ∧
      (wifi_stop_softap env s).2.staCfgBuf = s.staCfgBuf ∧
      (wifi_stop_softap env s).2.apStaCfgBuf = s.apStaCfgBuf ∧
      (wifi_start_smartconfig env s).2.staCfgBuf = s.staCfgBuf ∧
      (wifi_start_smartconfig env s).2.apStaCfgBuf = s.apStaCfgBuf ∧
      (wifi_stop_smartconfig env s).2.staCfgBuf = s.staCfgBuf ∧
      (wifi_stop_smartconfig env s).2.apStaCfgBuf = s.apStaCfgBuf ∧
      (wifi_start_running env s).2.staCfgBuf = s.staCfgBuf ∧
      (wifi_start_running env s).2.apStaCfgBuf = s.apStaCfgBuf) ∧
    (∀ (s : ModState) (e : WifiEventId),
      (wifi_wait_event s).2.staCfgBuf = s.staCfgBuf ∧
      (wifi_wait_event s).2.apStaCfgBuf = s.apStaCfgBuf ∧
      (wifi_event_handler_new e s).staCfgBuf = s.staCfgBuf ∧
      (wifi_event_handler_new e s).apStaCfgBuf = s.apStaCfgBuf ∧
      (ip_event_handler s).staCfgBuf = s.staCfgBuf ∧
      (ip_event_handler s).apStaCfgBuf = s.apStaCfgBuf) := by
  refine ⟨?_, ?_, ?_, ?_, ?_, ?_⟩
  · intro env ssid psw s b
    unfold wifi_sta_connect
    split_ifs <;> simp_all
  · intro env ssid psw s b
    unfold wifi_ap_sta_connect
    split_ifs <;> simp_all
  · intro env ssid psw s
    unfold wifi_sta_connect wifi_ap_sta_connect
    constructor <;> (split_ifs <;> simp_all)
  · intro env ssid psw ch s
    unfold wifi_ap_init wifi_ap_init_body
    constructor <;> (split_ifs <;> simp_all [clearEventBits])
  · intro env s
    refine ⟨?_, ?_, ?_, ?_, ?_, ?_, ?_, ?_, ?_, ?_⟩ <;>
      simp only [wifi_sta_init, wifi_sta_init_body, wifi_stop_softap,
        wifi_start_smartconfig, wifi_stop_smartconfig, wifi_start_running,
        clearEventBits] <;>
      (try (split_ifs <;> rfl))
  · intro s e
    refine ⟨?_, ?_, ?_, ?_, ?_, ?_⟩
    · simp only [wifi_wait_event]
      split_ifs <;> rfl
    · simp only [wifi_wait_event]
      split_ifs <;> rfl
    · cases e <;> simp [wifi_event_handler_new, clearEventBits, setEventBits]
    · cases e <;> simp [wifi_event_handler_new, clearEventBits, setEventBits]
    · simp [ip_event_handler, setEventBits]
    · simp [ip_event_handler, setEventBits]

/-- C3 counterexample: `wifi_stop_softap` returns 0 even though its
`esp_wifi_set_mode` vendor call failed with status 5, refuting the claim that
every forwarding function propagates a nonzero vendor status. -/
theorem stop_softap_swallows_vendor_failure :
    ({ okEnv with setModeRc := 5 } : VendorEnv).setModeRc ≠ 0 ∧
    (wifi_stop_softap { okEnv with setModeRc := 5 } initialState).1 = 0 := by
  decide

/-- C3 amended: the forwarding functions propagate the first nonzero status of
the vendor calls they treat as fatal and return 0 only when all of those
succeeded, with two exceptions visible in the code: `esp_wifi_disconnect` /
`esp_wifi_stop` failures inside the init functions are only logged, and
`wifi_stop_softap` ignores its `esp_wifi_set_mode` status and returns 0
unconditionally. -/
theorem vendor_status_propagation (env : VendorEnv) (s : ModState)
    (ssid : String) (psw : Option String) (ch : Nat) (ssid2 psw2 : String) :
    ((wifi_ap_init env ssid psw ch s).1 = 0 →
      env.setStorageRc = 0 ∧ env.setModeRc = 0 ∧ env.setConfigRc = 0) ∧
    ((wifi_ap_init env ssid psw ch s).1 ≠ 0 →
      (wifi_ap_init env ssid psw ch s).1 = ESP_ERR_NO_MEM ∨
      (wifi_ap_init env ssid psw ch s).1 = env.wifiInitRc ∨
      (wifi_ap_init env ssid psw ch s).1 = env.setStorageRc ∨
      (wifi_ap_init env ssid psw ch s).1 = env.setModeRc ∨
      (wifi_ap_init env ssid psw ch s).1 = env.setConfigRc) ∧
    ((wifi_sta_init env s).1 = 0 → env.setStorageRc = 0 ∧ env.setModeRc = 0) ∧
    ((wifi_sta_init env s).1 ≠ 0 →
      (wifi_sta_init env s).1 = ESP_ERR_NO_MEM ∨
      (wifi_sta_init env s).1 = env.wifiInitRc ∨
      (wifi_sta_init env s).1 = env.setStorageRc ∨
      (wifi_sta_init env s).1 = env.setModeRc) ∧
    ((wifi_sta_connect env ssid2 psw2 s).1 = 0 ↔
      env.setStorageRc = 0 ∧ env.setModeRc = 0 ∧ env.setConfigRc = 0 ∧
      env.connectRc = 0) ∧
    ((wifi_sta_connect env ssid2 psw2 s).1 ≠ 0 →
      (wifi_sta_connect env ssid2 psw2 s).1 = env.setStorageRc ∨
      (wifi_sta_connect env ssid2 psw2 s).1 = env.setModeRc ∨
      (wifi_sta_connect env ssid2 psw2 s).1 = env.setConfigRc ∨
      (wifi_sta_connect env ssid2 psw2 s).1 = env.connectRc) ∧
    ((wifi_ap_sta_connect env ssid2 psw2 s).1 = 0 ↔
      env.setStorageRc = 0 ∧ env.setModeRc = 0 ∧ env.setConfigRc = 0 ∧
      env.connectRc = 0) ∧
    ((wifi_ap_sta_connect env ssid2 psw2 s).1 ≠ 0 →
      (wifi_ap_sta_connect env ssid2 psw2 s).1 = env.setStorageRc ∨
      (wifi_ap_sta_connect env ssid2 psw2 s).1 = env.setModeRc ∨
      (wifi_ap_sta_connect env ssid2 psw2 s).1 = env.setConfigRc ∨
      (wifi_ap_sta_connect env ssid2 psw2 s).1 = env.connectRc) ∧
    ((wifi_start_smartconfig env s).1 = env.scSetTypeRc) ∧
    ((wifi_stop_smartconfig env s).1 = env.scStopRc) ∧
    ((wifi_start_running env s).1 = env.wifiStartRc) ∧
    ((wifi_stop_softap env s).1 = 0) := by
  refine ⟨?_, ?_, ?_, ?_, ?_, ?_, ?_, ?_, ?_, ?_, ?_, ?_⟩
  · unfold wifi_ap_init wifi_ap_init_body
    split_ifs <;> simp_all [ESP_OK, ESP_ERR_NO_MEM]
  · unfold wifi_ap_init wifi_ap_init_body
    split_ifs <;> simp_all [ESP_OK, ESP_ERR_NO_MEM]
  · unfold wifi_sta_init wifi_sta_init_body
    split_ifs <;> simp_all [ESP_OK, ESP_ERR_NO_MEM]
  · unfold wifi_sta_init wifi_sta_init_body
    split_ifs <;> simp_all [ESP_OK, ESP_ERR_NO_MEM]
  · unfold wifi_sta_connect
    split_ifs <;> simp_all
  · unfold wifi_sta_connect
    split_ifs <;> simp_all
  · unfold wifi_ap_sta_connect
    split_ifs <;> simp_all
  · unfold wifi_ap_sta_connect
    split_ifs <;> simp_all
  · unfold wifi_start_smartconfig
    split_ifs <;> simp_all [ESP_OK]
  · rfl
  · unfold wifi_start_running
    split_ifs <;> simp_all
  · unfold wifi_stop_softap
    split_ifs <;> simp_all

/-- Witness for C3 amended, instantiated at a concrete environment and inputs. -/
theorem vendor_status_propagation_witness :
    (((wifi_ap_init { okEnv with setModeRc := 7 } "a" none 1 initialState).1 = 0 →
      ({ okEnv with setModeRc := 7 } : VendorEnv).setStorageRc = 0 ∧
      ({ okEnv with setModeRc := 7 } : VendorEnv).setModeRc = 0 ∧
      ({ okEnv with setModeRc := 7 } : VendorEnv).setConfigRc = 0)) ∧
    ((wifi_ap_init { okEnv with setModeRc := 7 } "a" none 1 initialState).1 ≠ 0 →
      (wifi_ap_init { okEnv with setModeRc := 7 } "a" none 1 initialState).1 = ESP_ERR_NO_MEM ∨
      (wifi_ap_init { okEnv with setModeRc := 7 } "a" none 1 initialState).1 =
        ({ okEnv with setModeRc := 7 } : VendorEnv).wifiInitRc ∨
      (wifi_ap_init { okEnv with setModeRc := 7 } "a" none 1 initialState).1 =
        ({ okEnv with setModeRc := 7 } : VendorEnv).setStorageRc ∨
      (wifi_ap_init { okEnv with setModeRc := 7 } "a" none 1 initialState).1 =
        ({ okEnv with setModeRc := 7 } : VendorEnv).setModeRc ∨
      (wifi_ap_init { okEnv with setModeRc := 7 } "a" none 1 initialState).1 =
        ({ okEnv with setModeRc := 7 } : VendorEnv).setConfigRc) ∧
    ((wifi_sta_init { okEnv with setModeRc := 7 } initialState).1 = 0 →
      ({ okEnv with setModeRc := 7 } : VendorEnv).setStorageRc = 0 ∧
      ({ okEnv with setModeRc := 7 } : VendorEnv).setModeRc = 0) ∧
    ((wifi_sta_init { okEnv with setModeRc := 7 } initialState).1 ≠ 0 →
      (wifi_sta_init { okEnv with setModeRc := 7 } initialState).1 = ESP_ERR_NO_MEM ∨
      (wifi_sta_init { okEnv with setModeRc := 7 } initialState).1 =
        ({ okEnv with setModeRc := 7 } : VendorEnv).wifiInitRc ∨
      (wifi_sta_init { okEnv with setModeRc := 7 } initialState).1 =
        ({ okEnv with setModeRc := 7 } : VendorEnv).setStorageRc ∨
      (wifi_sta_init { okEnv with setModeRc := 7 } initialState).1 =
        ({ okEnv with setModeRc := 7 } : VendorEnv).setModeRc) ∧
    ((wifi_sta_connect { okEnv with setModeRc := 7 } "r" "p" initialState).1 = 0 ↔
      ({ okEnv with setModeRc := 7 } : VendorEnv).setStorageRc = 0 ∧
      ({ okEnv with setModeRc := 7 } : VendorEnv).setModeRc = 0 ∧
      ({ okEnv with setModeRc := 7 } : VendorEnv).setConfigRc = 0 ∧
      ({ okEnv with setModeRc := 7 } : VendorEnv).connectRc = 0) ∧
    ((wifi_sta_connect { okEnv with setModeRc := 7 } "r" "p" initialState).1 ≠ 0 →
      (wifi_sta_connect { okEnv with setModeRc := 7 } "r" "p" initialState).1 =
        ({ okEnv with setModeRc := 7 } : VendorEnv).setStorageRc ∨
      (wifi_sta_connect { okEnv with setModeRc := 7 } "r" "p" initialState).1 =
        ({ okEnv with setModeRc := 7 } : VendorEnv).setModeRc ∨
      (wifi_sta_connect { okEnv with setModeRc := 7 } "r" "p" initialState).1 =
        ({ okEnv with setModeRc := 7 } : VendorEnv).setConfigRc ∨
      (wifi_sta_connect { okEnv with setModeRc := 7 } "r" "p" initialState).1 =
        ({ okEnv with setModeRc := 7 } : VendorEnv).connectRc) ∧
    ((wifi_ap_sta_connect { okEnv with setModeRc := 7 } "r" "p" initialState).1 = 0 ↔
      ({ okEnv with setModeRc := 7 } : VendorEnv).setStorageRc = 0 ∧
      ({ okEnv with setModeRc := 7 } : VendorEnv).setModeRc = 0 ∧
      ({ okEnv with setModeRc := 7 } : VendorEnv).setConfigRc = 0 ∧
      ({ okEnv with setModeRc := 7 } : VendorEnv).connectRc = 0) ∧
    ((wifi_ap_sta_connect { okEnv with setModeRc := 7 } "r" "p" initialState).1 ≠ 0 →
      (wifi_ap_sta_connect { okEnv with setModeRc := 7 } "r" "p" initialState).1 =
        ({ okEnv with setModeRc := 7 } : VendorEnv).setStorageRc ∨
      (wifi_ap_sta_connect { okEnv with setModeRc := 7 } "r" "p" initialState).1 =
        ({ okEnv with setModeRc := 7 } : VendorEnv).setModeRc ∨
      (wifi_ap_sta_connect { okEnv with setModeRc := 7 } "r" "p" initialState).1 =
        ({ okEnv with setModeRc := 7 } : VendorEnv).setConfigRc ∨
      (wifi_ap_sta_connect { okEnv with setModeRc := 7 } "r" "p" initialState).1 =
        ({ okEnv with setModeRc := 7 } : VendorEnv).connectRc) ∧
    ((wifi_start_smartconfig { okEnv with setModeRc := 7 } initialState).1 =
      ({ okEnv with setModeRc := 7 } : VendorEnv).scSetTypeRc) ∧
    ((wifi_stop_smartconfig { okEnv with setModeRc := 7 } initialState).1 =
      ({ okEnv with setModeRc := 7 } : VendorEnv).scStopRc) ∧
    ((wifi_start_running { okEnv with setModeRc := 7 } initialState).1 =
      ({ okEnv with setModeRc := 7 } : VendorEnv).wifiStartRc) ∧
    ((wifi_stop_softap { okEnv with setModeRc := 7 } initialState).1 = 0) :=
  vendor_status_propagation { okEnv with setModeRc := 7 } initialState "a" none 1 "r" "p"

/-- An operation whose `esp_wifi_init` vendor call (if it makes one) succeeds. -/
def opInitOk (op : Op) : Bool :=
  match op with
  | Op.apInit env _ _ _ => env.wifiInitRc == 0
  | Op.staInit env => env.wifiInitRc == 0
  | _ => true

/-- Invariant for the one-time-init argument: before init-done is set no event
group has been created, and never more than one has been. -/
def InvC2 (s : ModState) : Prop :=
  (s.initDone = false → s.egCreateCount = 0) ∧ s.egCreateCount ≤ 1

theorem wifi_ap_init_preserves_invC2 (env : VendorEnv) (ssid : String)
    (psw : Option String) (ch : Nat) (s : ModState) (hw : env.wifiInitRc = 0)
    (h : InvC2 s) : InvC2 (wifi_ap_init env ssid psw ch s).2 := by
  obtain ⟨h1, h2⟩ := h
  unfold InvC2 wifi_ap_init wifi_ap_init_body
  split_ifs <;> simp_all [clearEventBits]

theorem wifi_sta_init_preserves_invC2 (env : VendorEnv) (s : ModState)
    (hw : env.wifiInitRc = 0) (h : InvC2 s) :
    InvC2 (wifi_sta_init env s).2 := by
  obtain ⟨h1, h2⟩ := h
  unfold InvC2 wifi_sta_init wifi_sta_init_body
  split_ifs <;> simp_all [clearEventBits]

theorem stepOp_preserves_invC2 (op : Op) (s : ModState)
    (hop : opInitOk op = true) (h : InvC2 s) : InvC2 (stepOp op s) := by
  cases op with
  | apInit env ssid psw ch =>
      simp only [opInitOk, beq_iff_eq] at hop
      exact wifi_ap_init_preserves_invC2 env ssid psw ch s hop h
  | staInit env =>
      simp only [opInitOk, beq_iff_eq] at hop
      exact wifi_sta_init_preserves_invC2 env s hop h
  | staConn env ssid psw =>
      obtain ⟨h1, h2⟩ := h
      simp only [stepOp]
      unfold InvC2 wifi_sta_connect
      split_ifs <;> simp_all
  | apStaConn env ssid psw =>
      obtain ⟨h1, h2⟩ := h
      simp only [stepOp]
      unfold InvC2 wifi_ap_sta_connect
      split_ifs <;> simp_all
  | stopSoftap env =>
      obtain ⟨h1, h2⟩ := h
      simp only [stepOp]
      unfold InvC2 wifi_stop_softap
      split_ifs <;> simp_all
  | startSc env =>
      obtain ⟨h1, h2⟩ := h
      simp only [stepOp]
      unfold InvC2 wifi_start_smartconfig
      split_ifs <;> simp_all
  | stopSc env =>
      obtain ⟨h1, h2⟩ := h
      simp only [stepOp]
      unfold InvC2 wifi_stop_smartconfig
      simp_all [clearEventBits]
  | startRunning env =>
      obtain ⟨h1, h2⟩ := h
      simp only [stepOp]
      unfold InvC2 wifi_start_running
      split_ifs <;> simp_all
  | waitEvt =>
      obtain ⟨h1, h2⟩ := h
      simp only [stepOp, wifi_wait_event]
      unfold InvC2
      split_ifs <;> simp_all
  | wifiEvt e =>
      obtain ⟨h1, h2⟩ := h
      simp only [stepOp]
      unfold InvC2 wifi_event_handler_new
      cases e <;> simp_all [clearEventBits, setEventBits]
  | ipGotIp =>
      obtain ⟨h1, h2⟩ := h
      simp only [stepOp]
      unfold InvC2 ip_event_handler
      simp_all [setEventBits]

theorem runOps_preserves_invC2 (ops : List Op)
    (hops : ∀ op ∈ ops, opInitOk op = true) (s : ModState) (h : InvC2 s) :
    InvC2 (runOps ops s) := by
  induction ops generalizing s with
  | nil => exact h
  | cons op rest ih =>
      exact ih (fun o ho => hops o (List.mem_cons_of_mem _ ho))
        (stepOp op s)
        (stepOp_preserves_invC2 op s (hops op (List.mem_cons_self _ _)) h)

/-- C2 counterexample: `wifi_ap_init` fails in `esp_wifi_init` after the event
group was created, so init-done stays false and the next call creates a second
event group, refuting "the event-group handle is created at most once". -/
theorem event_group_created_twice :
    (runOps [Op.apInit { okEnv with wifiInitRc := 1 } "a" none 1,
             Op.apInit okEnv "a" none 1] initialState).egCreateCount = 2 := by
  decide

/-- C2 amended: once a call to `wifi_ap_init` or `wifi_sta_init` completes the
init block and sets the init-done flag, every later call skips the block and
creates no further event group; and in any call sequence in which every
`esp_wifi_init` vendor call succeeds, the event-group handle is created at
most once. -/
theorem event_group_created_at_most_once :
    (∀ ops : List Op, (∀ op ∈ ops, opInitOk op = true) →
      (runOps ops initialState).egCreateCount ≤ 1) ∧
    (∀ (env : VendorEnv) (ssid : String) (psw : Option String) (ch : Nat)
        (s : ModState), s.initDone = true →
      (wifi_ap_init env ssid psw ch s).2.egCreateCount = s.egCreateCount) ∧
    (∀ (env : VendorEnv) (s : ModState), s.initDone = true →
      (wifi_sta_init env s).2.egCreateCount = s.egCreateCount) := by
  refine ⟨?_, ?_, ?_⟩
  · intro ops hops
    exact (runOps_preserves_invC2 ops hops initialState
      (by simp [InvC2, initialState])).2
  · intro env ssid psw ch s hs
    unfold wifi_ap_init wifi_ap_init_body
    split_ifs <;> simp_all [clearEventBits]
  · intro env s hs
    unfold wifi_sta_init wifi_sta_init_body
    split_ifs <;> simp_all [clearEventBits]

/-- Witness for C2 amended: a concrete two-call sequence with successful
vendor init calls creates the event group exactly once, hence at most once. -/
theorem event_group_created_at_most_once_witness :
    (runOps [Op.staInit okEnv, Op.apInit okEnv "a" none 1]
      initialState).egCreateCount ≤ 1 :=
  event_group_created_at_most_once.1
    [Op.staInit okEnv, Op.apInit okEnv "a" none 1] (by decide)

/-- The ESPTOUCH_DONE bit is clear in the module's event group (trivially so
when the group does not exist yet). -/
def esptouchClear (s : ModState) : Prop :=
  (s.eventGroup.getD 0) &&& ESPTOUCH_DONE_BIT = 0

theorem clearMask_all_esptouch (g : Nat) :
    clearMask g (CONNECTED_BIT ||| ESPTOUCH_DONE_BIT ||| STA_DISCONNECTED_BIT) &&&
      ESPTOUCH_DONE_BIT = 0 := by
  rw [ESPTOUCH_DONE_BIT, and_two_eq_zero_iff, testBit_clearMask]
  simp [CONNECTED_BIT, ESPTOUCH_DONE_BIT, STA_DISCONNECTED_BIT, Nat.testBit_lor]
  intro _
  decide

theorem clearMask_connected_esptouch (g : Nat) (h : g &&& ESPTOUCH_DONE_BIT = 0) :
    clearMask g CONNECTED_BIT &&& ESPTOUCH_DONE_BIT = 0 := by
  rw [ESPTOUCH_DONE_BIT, and_two_eq_zero_iff, testBit_clearMask]
  rw [ESPTOUCH_DONE_BIT, and_two_eq_zero_iff] at h
  simp [h]

theorem lor_connected_esptouch (g : Nat) (h : g &&& ESPTOUCH_DONE_BIT = 0) :
    (g ||| CONNECTED_BIT) &&& ESPTOUCH_DONE_BIT = 0 := by
  rw [ESPTOUCH_DONE_BIT, and_two_eq_zero_iff, Nat.testBit_lor]
  rw [ESPTOUCH_DONE_BIT, and_two_eq_zero_iff] at h
  simp [h, CONNECTED_BIT]
  decide

theorem lor_stadisc_esptouch (g : Nat) (h : g &&& ESPTOUCH_DONE_BIT = 0) :
    (g ||| STA_DISCONNECTED_BIT) &&& ESPTOUCH_DONE_BIT = 0 := by
  rw [ESPTOUCH_DONE_BIT, and_two_eq_zero_iff, Nat.testBit_lor]
  rw [ESPTOUCH_DONE_BIT, and_two_eq_zero_iff] at h
  simp [h, STA_DISCONNECTED_BIT]
  decide

theorem stepOp_preserves_esptouchClear (op : Op) (s : ModState)
    (h : esptouchClear s) : esptouchClear (stepOp op s) := by
  cases op with
  | apInit env ssid psw ch =>
      unfold esptouchClear at *
      simp only [stepOp]
      unfold wifi_ap_init wifi_ap_init_body
      cases hg : s.eventGroup <;>
        split_ifs <;>
          simp_all [clearEventBits, clearMask_all_esptouch]
  | staInit env =>
      unfold esptouchClear at *
      simp only [stepOp]
      unfold wifi_sta_init wifi_sta_init_body
      cases hg : s.eventGroup <;>
        split_ifs <;>
          simp_all [clearEventBits, clearMask_all_esptouch]
  | staConn env ssid psw =>
      unfold esptouchClear at *
      simp only [stepOp]
      unfold wifi_sta_connect
      split_ifs <;> simp_all
  | apStaConn env ssid psw =>
      unfold esptouchClear at *
      simp only [stepOp]
      unfold wifi_ap_sta_connect
      split_ifs <;> simp_all
  | stopSoftap env =>
      unfold esptouchClear at *
      simp only [stepOp]
      unfold wifi_stop_softap
      split_ifs <;> simp_all
  | startSc env =>
      unfold esptouchClear at *
      simp only [stepOp]
      unfold wifi_start_smartconfig
      split_ifs <;> simp_all
  | stopSc env =>
      unfold esptouchClear at *
      simp only [stepOp]
      unfold wifi_stop_smartconfig
      cases hg : s.eventGroup <;>
        simp_all [clearEventBits, clearMask_all_esptouch]
  | startRunning env =>
      unfold esptouchClear at *
      simp only [stepOp]
      unfold wifi_start_running
      split_ifs <;> simp_all
  | waitEvt =>
      unfold esptouchClear at *
      simp only [stepOp, wifi_wait_event, xEventGroupWaitBitsAnyClear, waitAllMask]
      cases hg : s.eventGroup <;>
        split_ifs <;>
          simp_all [clearMask_all_esptouch]
  | wifiEvt e =>
      unfold esptouchClear at *
      simp only [stepOp]
      unfold wifi_event_handler_new
      cases e <;> cases hg : s.eventGroup <;>
        simp_all [clearEventBits, setEventBits]
      exact lor_stadisc_esptouch _ (clearMask_connected_esptouch _ h)
  | ipGotIp =>
      unfold esptouchClear at *
      simp only [stepOp]
      unfold ip_event_handler
      cases hg : s.eventGroup <;>
        simp_all [setEventBits, lor_connected_esptouch]

theorem runOps_preserves_esptouchClear (ops : List Op) (s : ModState)
    (h : esptouchClear s) : esptouchClear (runOps ops s) := by
  induction ops generalizing s with
  | nil => exact h
  | cons op rest ih =>
      exact ih (stepOp op s) (stepOp_preserves_esptouchClear op s h)

theorem esptouchClear_wait_not_smartconfig (s : ModState)
    (h : esptouchClear s) :
    (wifi_wait_event s).1 ≠ WaitResult.eventSmartconfigStop := by
  unfold esptouchClear at h
  simp only [wifi_wait_event, xEventGroupWaitBitsAnyClear]
  split_ifs <;> simp_all

/-- C9: starting from the initial state, no module operation or handler
invocation ever sets the ESPTOUCH_DONE bit (the smart-config callback that
would set it is absent and `wifi_start_smartconfig` never starts the vendor
smart-config process), so in every reachable state `wifi_wait_event` never
returns EVENT_SMARTCONFIG_STOP. -/
theorem smartconfig_stop_unreachable (ops : List Op) :
    esptouchClear (runOps ops initialState) ∧
    (wifi_wait_event (runOps ops initialState)).1 ≠
      WaitResult.eventSmartconfigStop := by
  have h : esptouchClear (runOps ops initialState) :=
    runOps_preserves_esptouchClear ops initialState (by simp [esptouchClear, initialState])
  exact ⟨h, esptouchClear_wait_not_smartconfig _ h⟩

end WifiConfig
